import Mathlib

/-
Verification development for the Archemeds task-orchestration core.

Shallow embedding of:
  * backend/models/agent_models.py        (enums, ExecutionContext, TaskRequest, TaskResult)
  * backend/core/orchestration/agent_registry.py    (AgentRegistry)
  * backend/core/orchestration/execution_engine.py  (ExecutionEngine)
  * backend/core/orchestration/task_planner.py      (TaskPlanner, dataclass ExecutionPlan)
  * backend/core/orchestration/intent_classifier.py (IntentClassifier)
  * backend/core/orchestration/middleware.py        (AgenticMiddleware.process_request)
  * Complete-Data-Models-Implementation.py          (planning models: ExecutionStep, ExecutionPlan)

Python exceptions are modelled by `Except PyError`; pydantic field validation is
modelled by fallible smart constructors.  Floats are modelled by ℚ.  Fields of
the pydantic models that no claim touches (datetimes, parameters, priority,
tokens_used, cost, confidence_score, metadata) are omitted; omissions are noted
at each structure.
-/

namespace Archemeds

/-- `AgentType(str, Enum)` from agent_models.py: the eight declared members.
There is no member with value "unknown". -/
inductive AgentType where
  | code
  | infrastructure
  | testing
  | devops
  | documentation
  | security
  | planning
  | review
deriving DecidableEq, Repr

/-- The `.value` string of each `AgentType` member. -/
def AgentType.val : AgentType → String
  | .code => "code"
  | .infrastructure => "infrastructure"
  | .testing => "testing"
  | .devops => "devops"
  | .documentation => "documentation"
  | .security => "security"
  | .planning => "planning"
  | .review => "review"

/-- Pydantic coercion of a raw string into the `AgentType` enum: succeeds exactly
on the eight declared values (`AgentType("unknown")` fails). -/
def AgentType.ofVal : String → Option AgentType
  | "code" => some .code
  | "infrastructure" => some .infrastructure
  | "testing" => some .testing
  | "devops" => some .devops
  | "documentation" => some .documentation
  | "security" => some .security
  | "planning" => some .planning
  | "review" => some .review
  | _ => none

/-- `TaskStatus(str, Enum)` from agent_models.py. -/
inductive TaskStatus where
  | pending
  | in_progress
  | completed
  | failed
  | cancelled
deriving DecidableEq, Repr

/-- The `.value` string of each `TaskStatus` member. -/
def TaskStatus.val : TaskStatus → String
  | .pending => "pending"
  | .in_progress => "in_progress"
  | .completed => "completed"
  | .failed => "failed"
  | .cancelled => "cancelled"

/-- `IntentType(str, Enum)` from agent_models.py (the eleven-member enum; the
five-member enum of intent_classifier.py is value-compatible, and pydantic
coerces by value, so a single type models both). -/
inductive IntentType where
  | code_generation
  | code_review
  | code_refactoring
  | infrastructure_setup
  | testing
  | deployment
  | documentation
  | debugging
  | security_scan
  | explanation
  | project_setup
deriving DecidableEq, Repr

/-- A raised Python exception, carrying `str(e)`.  `validation` stands for
pydantic `ValidationError`, `runtime` for every other exception class. -/
inductive PyError where
  | validation (msg : String)
  | runtime (msg : String)
deriving DecidableEq, Repr

/-- `str(e)` for a raised exception. -/
def PyError.message : PyError → String
  | .validation m => m
  | .runtime m => m

/-- `ExecutionContext` (agent_models.py); environment/language/framework/metadata
omitted (no claim reads them).  Contexts reaching the orchestration core are
already validated, so this is a plain structure. -/
structure ExecutionContext where
  session_id : String
  user_id : String
  project_id : String
  workspace_path : String
deriving DecidableEq, Repr

/-- `TaskRequest` (agent_models.py); parameters/priority/created_at/parent_task_id
omitted.  `id` is the uuid4 default, modelled as an arbitrary string. -/
structure TaskRequest where
  id : String
  intent : IntentType
  description : String
  context : ExecutionContext
  timeout : Int := 300
  retry_count : Int := 0
  max_retries : Int := 3
deriving DecidableEq, Repr

/-- `TaskResult` (agent_models.py); tokens_used/cost/confidence_score/metadata
and the timestamps omitted.  `result` models the opaque `Dict[str, Any]`
payload as a string association list. -/
structure TaskResult where
  task_id : String
  agent_type : AgentType
  status : TaskStatus
  result : Option (List (String × String)) := none
  error : Option String := none
  execution_time : ℚ := 0
deriving DecidableEq, Repr

/-- The pydantic `ValidationError` message produced when a raw `agent_type`
value is not a member of the `AgentType` enum. -/
def agentTypeValidationMsg (raw : String) : String :=
  "agent_type: Input should be a valid AgentType, got " ++ raw

/-- Pydantic construction `TaskResult(task_id=.., agent_type=.., status=..,
result=.., error=.., execution_time=..)`.  The `agent_type` argument is the raw
value handed to the constructor (the engine passes the string "unknown";
`AgentType` members coerce via their `.value`).  Validation of `agent_type`
against the enum and the non-negative `execution_time` field validator are the
checks a claim can observe. -/
def mkTaskResult (task_id : String) (agent_type : String) (status : TaskStatus)
    (result : Option (List (String × String))) (error : Option String)
    (execution_time : ℚ) : Except PyError TaskResult :=
  match AgentType.ofVal agent_type with
  | none => .error (.validation (agentTypeValidationMsg agent_type))
  | some a =>
    if execution_time < 0 then
      .error (.validation "Execution time cannot be negative")
    else
      .ok { task_id := task_id, agent_type := a, status := status,
            result := result, error := error, execution_time := execution_time }

/-- `BaseAgent` (agents/base/agent.py): a capability type plus the abstract
`can_handle` / `execute` worker contract.  `name` stands for Python object
identity; `execute` may raise, hence `Except`. -/
structure Agent where
  name : String
  agent_type : AgentType
  can_handle : TaskRequest → Bool
  execute : TaskRequest → Except PyError TaskResult

/-- `AgentRegistry.agents`: a Python dict keyed by `AgentType`, modelled as an
association list in insertion order (Python 3.7+ dict semantics). -/
abbrev Registry := List (AgentType × Agent)

/-- Python dict assignment `d[k] = v`: replaces in place if the key is present
(keeping its position), otherwise appends. -/
def dictAssign : Registry → AgentType → Agent → Registry
  | [], k, v => [(k, v)]
  | (k0, v0) :: rest, k, v =>
    if k0 = k then (k0, v) :: rest else (k0, v0) :: dictAssign rest k v

/-- `AgentRegistry.register_agent`: `self.agents[agent.agent_type] = agent`. -/
def register_agent (reg : Registry) (agent : Agent) : Registry :=
  dictAssign reg agent.agent_type agent

/-- `AgentRegistry.get_agent`: `self.agents.get(agent_type)`. -/
def get_agent : Registry → AgentType → Option Agent
  | [], _ => none
  | (k0, v0) :: rest, k => if k0 = k then some v0 else get_agent rest k

/-- `self.agents.values()` in dict iteration order. -/
def dictValues (reg : Registry) : List Agent := reg.map Prod.snd

/-- `AgentRegistry.find_capable_agents`: iterate `self.agents.values()`, keep
every agent whose `can_handle(task)` holds. -/
def find_capable_agents (reg : Registry) (task : TaskRequest) : List Agent :=
  (dictValues reg).filter (fun agent => agent.can_handle task)

/-- A registry built by a sequence of `register_agent` calls starting empty. -/
def register_all (ws : List Agent) : Registry :=
  ws.foldl register_agent []

/-- The currently-registered workers of a registration call sequence, listed in
the order of their (winning) registration calls: a call survives iff no later
call registers the same capability type. -/
def current_workers : List Agent → List Agent
  | [] => []
  | w :: rest =>
    if rest.any (fun v => decide (v.agent_type = w.agent_type)) then
      current_workers rest
    else
      w :: current_workers rest

/-- `ExecutionEngine.execute_task`, instrumented with the number of worker
`execute` invocations (second component).  `elapsed` is the wall-clock seconds
`(datetime.utcnow() - start_time).total_seconds()` observed in the except
handler.  Faithful control flow: the try block either hits the
no-capable-agents branch (which builds a `TaskResult` with
`agent_type="unknown"` and the default `execution_time=0.0`) or dispatches the
first capable agent once; any exception from the try block reaches the except
handler, which builds a `TaskResult` with `agent_type="unknown"`,
`error=str(e)` and `execution_time=elapsed` — an exception raised by that
construction itself is not caught and propagates. -/
def execute_task_instr (reg : Registry) (elapsed : ℚ) (task : TaskRequest) :
    Except PyError TaskResult × Nat :=
  let handle : Except PyError TaskResult → Except PyError TaskResult :=
    fun tryResult =>
      match tryResult with
      | .ok r => .ok r
      | .error e =>
        mkTaskResult task.id "unknown" TaskStatus.failed none
          (some e.message) elapsed
  match find_capable_agents reg task with
  | [] =>
    (handle (mkTaskResult task.id "unknown" TaskStatus.failed none
      (some "No capable agents found") 0), 0)
  | agent :: _ => (handle (agent.execute task), 1)

/-- `ExecutionEngine.execute_task`: the returned value (or propagated
exception). -/
def execute_task (reg : Registry) (elapsed : ℚ) (task : TaskRequest) :
    Except PyError TaskResult :=
  (execute_task_instr reg elapsed task).1

/-- Number of worker dispatches (`selected_agent.execute` calls) one
`execute_task` call performs. -/
def execute_task_attempts (reg : Registry) (elapsed : ℚ) (task : TaskRequest) :
    Nat :=
  (execute_task_instr reg elapsed task).2

namespace planner

/-- The `@dataclass ExecutionPlan` of task_planner.py.  `dependencies` models
`Dict[str, List[str]]` as an association list. -/
structure ExecutionPlan where
  id : String
  original_task : TaskRequest
  subtasks : List TaskRequest
  dependencies : List (String × List String)
  estimated_duration : Int
deriving DecidableEq, Repr

/-- One dependency edge of a plan: `x` depends on `y`. -/
def depRel (plan : ExecutionPlan) (x y : String) : Prop :=
  ∃ ds, (x, ds) ∈ plan.dependencies ∧ y ∈ ds

/-- The plan's dependency relation admits a cycle (some id reaches itself
through one or more edges). -/
def Cyclic (plan : ExecutionPlan) : Prop :=
  ∃ x, Relation.TransGen (depRel plan) x x

/-- Some dependency entry mentions an id that is not the id of any subtask of
the plan (either as the depending step or as a dependency). -/
def Dangling (plan : ExecutionPlan) : Prop :=
  ∃ pr ∈ plan.dependencies,
    pr.1 ∉ plan.subtasks.map TaskRequest.id ∨
    ∃ d ∈ pr.2, d ∉ plan.subtasks.map TaskRequest.id

end planner

/-- `TaskPlanner.create_plan`: the only decomposition the planner performs is
the trivial one — a single subtask wrapping the original request, an empty
dependency dict, and fixed id/duration. -/
def create_plan (task : TaskRequest) : planner.ExecutionPlan :=
  { id := "plan-1", original_task := task, subtasks := [task],
    dependencies := [], estimated_duration := 60 }

/-- The loop body of `ExecutionEngine.execute_plan`: execute each subtask in
list order, awaiting each before the next; a raised exception propagates and no
result list is produced. -/
def run_subtasks (reg : Registry) (elapsed : ℚ) :
    List TaskRequest → Except PyError (List TaskResult)
  | [] => .ok []
  | t :: ts =>
    match execute_task reg elapsed t with
    | .error e => .error e
    | .ok r =>
      match run_subtasks reg elapsed ts with
      | .error e => .error e
      | .ok rs => .ok (r :: rs)

/-- `ExecutionEngine.execute_plan`: iterates `plan.subtasks` sequentially; the
dependency map is never consulted. -/
def execute_plan (reg : Registry) (elapsed : ℚ)
    (plan : planner.ExecutionPlan) : Except PyError (List TaskResult) :=
  run_subtasks reg elapsed plan.subtasks

/-- `pat` begins the character list `s`. -/
def leadsWith : List Char → List Char → Bool
  | [], _ => true
  | _ :: _, [] => false
  | p :: ps, c :: cs => p == c && leadsWith ps cs

/-- `pat` occurs somewhere in the character list `s`. -/
def occursIn (pat : List Char) : List Char → Bool
  | [] => leadsWith pat []
  | c :: cs => leadsWith pat (c :: cs) || occursIn pat cs

/-- Python substring test `pat in s` for the classifier keywords. -/
def containsSub (s pat : String) : Bool :=
  occursIn pat.data s.data

/-- Python `s.lower()` (ASCII suffices for the classifier keywords). -/
def pyLower (s : String) : String :=
  ⟨s.data.map Char.toLower⟩

/-- Python `s.strip()`: drop leading and trailing whitespace. -/
def pyStrip (s : String) : String :=
  ⟨((s.data.dropWhile Char.isWhitespace).reverse.dropWhile
      Char.isWhitespace).reverse⟩

/-- `IntentClassifier.classify`: lowercase the input, scan the
`intent_examples` dict in insertion order (code generation, infrastructure
setup, testing), return the first intent one of whose keywords occurs;
default `CODE_GENERATION`.  It never raises. -/
def classify (user_input : String) : IntentType :=
  let lower := pyLower user_input
  if ["create a function", "write code for", "implement", "generate"].any
      (fun k => containsSub lower k) then
    .code_generation
  else if ["deploy to", "create dockerfile", "setup kubernetes"].any
      (fun k => containsSub lower k) then
    .infrastructure_setup
  else if ["write tests", "create unit tests", "test coverage"].any
      (fun k => containsSub lower k) then
    .testing
  else
    .code_generation

/-- Pydantic construction `TaskRequest(intent=.., description=.., context=..)`
as performed by the façade: the `description` field validator rejects an input
that is empty after stripping, and the stripped text is stored; remaining
fields take their defaults (`id` is a fresh uuid, modelled by a fixed
placeholder — no claim reads it). -/
def mkTaskRequest (intent : IntentType) (description : String)
    (ctx : ExecutionContext) : Except PyError TaskRequest :=
  if pyStrip description = "" then
    .error (.validation "Task description cannot be empty")
  else
    .ok { id := "task-uuid", intent := intent,
          description := pyStrip description, context := ctx }

/-- The dict shapes `AgenticMiddleware.process_request` can return:
`failed e` is `\x7b"error": e, "status": "failed", "timestamp": ...\x7d`;
`single s r` is `\x7b"status": s, "result": r\x7d` from `_format_single_result`;
`completed rs` is `\x7b"status": "completed", "results": rs\x7d` from
`_aggregate_results`. -/
inductive Response where
  | failed (error : String)
  | single (status : String) (result : Option (List (String × String)))
  | completed (results : List TaskResult)
deriving DecidableEq, Repr

/-- The "status" entry every response dict carries. -/
def Response.statusOf : Response → String
  | .failed _ => "failed"
  | .single s _ => s
  | .completed _ => "completed"

/-- `AgenticMiddleware._needs_planning`: always `False`. -/
def needs_planning (_task : TaskRequest) : Bool := false

/-- The try block of `AgenticMiddleware.process_request`: classify, build the
`TaskRequest`, then (planning never being requested) execute the single task
and format the result.  Any exception raised by a stage is the `Except`
error. -/
def process_request_try (reg : Registry) (elapsed : ℚ) (user_input : String)
    (ctx : ExecutionContext) : Except PyError Response := do
  let intent := classify user_input
  let task ← mkTaskRequest intent user_input ctx
  if needs_planning task then
    let plan := create_plan task
    let results ← execute_plan reg elapsed plan
    pure (Response.completed results)
  else
    let result ← execute_task reg elapsed task
    pure (Response.single result.status.val result.result)

/-- `AgenticMiddleware.process_request`: the try block wrapped in the
catch-all except handler, which converts `str(e)` into the failed dict. -/
def process_request (reg : Registry) (elapsed : ℚ) (user_input : String)
    (ctx : ExecutionContext) : Response :=
  match process_request_try reg elapsed user_input ctx with
  | .ok r => r
  | .error e => .failed e.message

namespace models

/-- `ExecutionStep` of Complete-Data-Models-Implementation.py (identical in the
pydantic-v2 variant); the `task` payload reuses `TaskRequest`. -/
structure ExecutionStep where
  id : String
  agent_type : AgentType
  task : TaskRequest
  dependencies : List String := []
  estimated_duration : Int := 60
  status : TaskStatus := .pending
  retry_count : Int := 0
  max_retries : Int := 3
deriving DecidableEq, Repr

/-- `ExecutionStep.can_execute`: every dependency id is in the completed set
(the Python `set` is modelled as a list with membership). -/
def ExecutionStep.can_execute (step : ExecutionStep)
    (completed_steps : List String) : Bool :=
  step.dependencies.all (fun dep_id => decide (dep_id ∈ completed_steps))

/-- `ExecutionPlan` of Complete-Data-Models-Implementation.py; timestamps
omitted. -/
structure ExecutionPlan where
  id : String
  original_task : TaskRequest
  steps : List ExecutionStep
  estimated_total_duration : Int
  status : TaskStatus := .pending
deriving DecidableEq, Repr

/-- `ExecutionPlan.get_ready_steps`: the steps that are `PENDING` and whose
`can_execute(completed_step_ids)` holds, in step-list order. -/
def ExecutionPlan.get_ready_steps (plan : ExecutionPlan)
    (completed_step_ids : List String) : List ExecutionStep :=
  plan.steps.filter
    (fun step =>
      decide (step.status = TaskStatus.pending) &&
        step.can_execute completed_step_ids)

/-- `ExecutionPlan.get_progress`: `0.0` on an empty step list, otherwise
`(completed / len(steps)) * 100.0` (floats modelled exactly by ℚ). -/
def ExecutionPlan.get_progress (plan : ExecutionPlan) : ℚ :=
  if plan.steps.isEmpty then 0
  else
    ((plan.steps.countP
        (fun s => decide (s.status = TaskStatus.completed)) : ℚ) /
      (plan.steps.length : ℚ)) * 100

end models

/-! ## Concrete fixtures used by witnesses and counterexamples -/

/-- A validated execution context. -/
def ctx0 : ExecutionContext :=
  { session_id := "s1", user_id := "u1", project_id := "p1",
    workspace_path := "/ws" }

/-- A plain code-generation request. -/
def task0 : TaskRequest :=
  { id := "task-0", intent := .code_generation, description := "implement x",
    context := ctx0 }

/-! ## Claim theorems -/

/-- Claim C2, counterexample: the plan with an empty step list has every step
vacuously Completed (the boolean `all` evaluates to `true`), yet
`get_progress` returns 0, not 100 — refuting the claimed iff at its explicit
empty edge case. -/
theorem c2_counterexample :
    ({ id := "plan-2", original_task := task0, steps := [],
       estimated_total_duration := 0 } :
        models.ExecutionPlan).get_progress ≠ 100 ∧
    (({ id := "plan-2", original_task := task0, steps := [],
        estimated_total_duration := 0 } :
        models.ExecutionPlan).steps.all
      (fun s => decide (s.status = TaskStatus.completed))) = true := by
  exact ⟨by decide, rfl⟩

/-- Claim C2, amended: for every plan, `get_progress` lies in [0,100]; an empty
plan reports 0 (not 100); and for every non-empty plan, `get_progress = 100`
iff every step is Completed. -/
theorem c2_progress_bounds (plan : models.ExecutionPlan) :
    0 ≤ plan.get_progress ∧ plan.get_progress ≤ 100 ∧
    (plan.steps = [] → plan.get_progress = 0) ∧
    (plan.steps ≠ [] →
      (plan.get_progress = 100 ↔
        ∀ s ∈ plan.steps, s.status = TaskStatus.completed)) := by
  by_cases hs : plan.steps = []
  · refine ⟨?_, ?_, fun _ => ?_, fun h => absurd hs h⟩ <;>
      simp [models.ExecutionPlan.get_progress, hs]
  · have hne : ¬ plan.steps.isEmpty = true := by simp [hs]
    have hlen0 : 0 < plan.steps.length := List.length_pos.mpr hs
    have hlen : (0 : ℚ) < ((plan.steps.length : ℚ)) := by exact_mod_cast hlen0
    have hcount : plan.steps.countP
        (fun s => decide (s.status = TaskStatus.completed)) ≤
        plan.steps.length := List.countP_le_length _
    have hratio : ((plan.steps.countP
        (fun s => decide (s.status = TaskStatus.completed)) : ℚ)) /
        ((plan.steps.length : ℚ)) ≤ 1 := by
      rw [div_le_one hlen]
      exact_mod_cast hcount
    refine ⟨?_, ?_, fun h => absurd h hs, fun _ => ?_⟩
    · rw [models.ExecutionPlan.get_progress, if_neg hne]
      positivity
    · rw [models.ExecutionPlan.get_progress, if_neg hne]
      calc _ ≤ (1 : ℚ) * 100 :=
            mul_le_mul_of_nonneg_right hratio (by norm_num)
        _ = 100 := by norm_num
    · rw [models.ExecutionPlan.get_progress, if_neg hne,
        div_mul_eq_mul_div, div_eq_iff (ne_of_gt hlen)]
      have hcancel : ((plan.steps.countP
          (fun s => decide (s.status = TaskStatus.completed)) : ℚ)) * 100 =
            100 * ((plan.steps.length : ℚ)) ↔
          ((plan.steps.countP
            (fun s => decide (s.status = TaskStatus.completed)) : ℚ)) =
            ((plan.steps.length : ℚ)) := by
        constructor <;> intro h <;> linarith
      rw [hcancel, Nat.cast_inj, List.countP_eq_length]
      simp

/-- Claim C2, witness for the amended theorem: a one-step plan whose single
step is Completed reports progress exactly 100. -/
theorem c2_witness :
    ({ id := "plan-2w", original_task := task0,
       steps := [{ id := "s1", agent_type := .code, task := task0,
                   status := TaskStatus.completed }],
       estimated_total_duration := 60 } :
        models.ExecutionPlan).get_progress = 100 :=
  ((c2_progress_bounds _).2.2.2 (by simp)).mpr (by decide)

/-- Claim C3: a step is in `get_ready_steps(completed)` iff it is one of the
plan's steps, its status is Pending, and every one of its dependency ids is in
the completed-id set. -/
theorem c3_ready_steps_iff (plan : models.ExecutionPlan)
    (completed : List String) (step : models.ExecutionStep) :
    step ∈ plan.get_ready_steps completed ↔
      step ∈ plan.steps ∧ step.status = TaskStatus.pending ∧
        ∀ d ∈ step.dependencies, d ∈ completed := by
  simp [models.ExecutionPlan.get_ready_steps, models.ExecutionStep.can_execute,
    List.mem_filter, List.all_eq_true, and_assoc]

/-- Claim C3, witness: a Pending step with dependency "a" is ready once "a" is
in the completed set. -/
theorem c3_witness :
    ({ id := "s3", agent_type := .code, task := task0,
       dependencies := ["a"] } : models.ExecutionStep) ∈
      ({ id := "plan-3", original_task := task0,
         steps := [{ id := "s3", agent_type := .code, task := task0,
                     dependencies := ["a"] }],
         estimated_total_duration := 60 } :
          models.ExecutionPlan).get_ready_steps ["a", "b"] :=
  (c3_ready_steps_iff _ _ _).mpr ⟨by simp, rfl, by decide⟩

/-- Claim C6: `create_plan` only ever emits the trivial decomposition (one
subtask, empty dependency dict), so no input can make the decomposition cyclic
or dangling — the PlanningError clause is vacuous — and the returned plan's
dependency relation is never cyclic and never references a nonexistent step. -/
theorem c6_planner_never_returns_bad_graph (task : TaskRequest) :
    (create_plan task).dependencies = [] ∧
    ¬ planner.Cyclic (create_plan task) ∧
    ¬ planner.Dangling (create_plan task) := by
  refine ⟨rfl, ?_, ?_⟩
  · rintro ⟨x, h⟩
    cases h with
    | single h1 =>
      rcases h1 with ⟨ds, hm, _⟩
      exact absurd hm (by simp [create_plan])
    | tail _ h1 =>
      rcases h1 with ⟨ds, hm, _⟩
      exact absurd hm (by simp [create_plan])
  · rintro ⟨pr, hpr, _⟩
    exact absurd hpr (by simp [create_plan])

/-- Claim C6, witness: the plan created for a concrete request is acyclic. -/
theorem c6_witness : ¬ planner.Cyclic (create_plan task0) :=
  (c6_planner_never_returns_bad_graph task0).2.1

/-! ## Registry lemmas (dict-assignment semantics) -/

/-- Spec of Python dict assignment for lookups: assigning key `k` makes `k` map
to the new value and leaves every other key unchanged. -/
theorem dictAssign_get_agent (m : Registry) (k : AgentType) (v : Agent)
    (k2 : AgentType) :
    get_agent (dictAssign m k v) k2 =
      (if k = k2 then some v else get_agent m k2) := by
  induction m with
  | nil => simp [dictAssign, get_agent]
  | cons p rest ih =>
    obtain ⟨k0, v0⟩ := p
    by_cases h0 : k0 = k
    · subst h0
      by_cases h2 : k0 = k2 <;> simp [dictAssign, get_agent, h2]
    · by_cases h2 : k0 = k2
      · subst h2
        simp [dictAssign, get_agent, h0, Ne.symm h0]
      · simp [dictAssign, get_agent, h0, h2, ih]

/-- Spec of Python dict assignment for sizes: assigning an existing key keeps
the dict size, assigning a fresh key grows it by one — it never keeps two
entries under one key. -/
theorem dictAssign_length (m : Registry) (k : AgentType) (v : Agent) :
    (dictAssign m k v).length =
      (if m.any (fun p => decide (p.1 = k)) then m.length
       else m.length + 1) := by
  induction m with
  | nil => simp [dictAssign]
  | cons p rest ih =>
    obtain ⟨k0, v0⟩ := p
    by_cases h0 : k0 = k
    · simp [dictAssign, h0]
    · by_cases hr : rest.any (fun p => decide (p.1 = k)) <;>
        simp [dictAssign, h0, hr, ih]

/-- A successful worker result for task `t` produced by a worker of type `a`
(used by fixture agents below). -/
def okResult (t : TaskRequest) (a : AgentType) : TaskResult :=
  { task_id := t.id, agent_type := a, status := .completed }

/-- Agents used by the C7 counterexample: two distinct workers declaring the
same capability type `code`. -/
def c7a1 : Agent :=
  { name := "agent-one", agent_type := .code,
    can_handle := fun _ => true,
    execute := fun t => .ok (okResult t .code) }

/-- Second worker of capability type `code`, distinct from `c7a1`. -/
def c7a2 : Agent :=
  { name := "agent-two", agent_type := .code,
    can_handle := fun _ => true,
    execute := fun t => .ok (okResult t .code) }

/-- Claim C7, counterexample: registering `c7a2` after `c7a1` (same capability
type) leaves a registry holding only `c7a2`; `c7a1` is no longer registered, so
the two do not coexist as candidates. -/
theorem c7_counterexample :
    register_agent (register_agent [] c7a1) c7a2 = [(AgentType.code, c7a2)] ∧
    c7a1 ∉ dictValues (register_agent (register_agent [] c7a1) c7a2) := by
  refine ⟨rfl, ?_⟩
  intro h
  simp [register_agent, dictAssign, dictValues, c7a1, c7a2] at h

/-- Claim C7, amended: `register_agent` stores the worker under its capability
type with Python dict-assignment semantics — the new worker replaces any
earlier worker of the same type (the registry does not grow), other types are
untouched, and a fresh type appends a new entry. -/
theorem c7_register_replaces (reg : Registry) (a : Agent) (k : AgentType) :
    get_agent (register_agent reg a) k =
      (if a.agent_type = k then some a else get_agent reg k) ∧
    (register_agent reg a).length =
      (if reg.any (fun p => decide (p.1 = a.agent_type)) then reg.length
       else reg.length + 1) :=
  ⟨dictAssign_get_agent reg a.agent_type a k,
   dictAssign_length reg a.agent_type a⟩

/-- Claim C7, witness for the amended theorem: registering a concrete worker
into the empty registry makes it the entry under its type. -/
theorem c7_witness :
    get_agent (register_agent [] c7a1) AgentType.code = some c7a1 := by
  have h := (c7_register_replaces [] c7a1 AgentType.code).1
  simpa [c7a1] using h

/-- Request used by the C8 counterexample. -/
def c8task : TaskRequest :=
  { id := "task-8", intent := .code_generation, description := "implement y",
    context := ctx0 }

/-- First registered worker (capability `code`). -/
def c8a1 : Agent :=
  { name := "w1", agent_type := .code,
    can_handle := fun _ => true,
    execute := fun t => .ok (okResult t .code) }

/-- Second registered worker (capability `testing`). -/
def c8b : Agent :=
  { name := "w2", agent_type := .testing,
    can_handle := fun _ => true,
    execute := fun t => .ok (okResult t .testing) }

/-- Third registered worker (capability `code` again, replacing `c8a1`). -/
def c8a2 : Agent :=
  { name := "w3", agent_type := .code,
    can_handle := fun _ => true,
    execute := fun t => .ok (okResult t .code) }

/-- Claim C8, counterexample: after registering `c8a1` (code), `c8b` (testing),
`c8a2` (code), the currently-registered workers in registration-call order are
`[c8b, c8a2]`, but `find_capable_agents` (with every `can_handle` true) returns
`[c8a2, c8b]` — the replaced `code` key kept its original dict position, so the
output is not in registration order. -/
theorem c8_counterexample :
    find_capable_agents (register_all [c8a1, c8b, c8a2]) c8task ≠
      (current_workers [c8a1, c8b, c8a2]).filter
        (fun w => w.can_handle c8task) := by
  intro h
  rw [show find_capable_agents (register_all [c8a1, c8b, c8a2]) c8task =
        [c8a2, c8b] from rfl,
      show (current_workers [c8a1, c8b, c8a2]).filter
        (fun w => w.can_handle c8task) = [c8b, c8a2] from rfl] at h
  have h1 : c8a2 = c8b := by
    have := congrArg (fun l => l.head?) h
    simpa using this
  have h2 := congrArg Agent.agent_type h1
  simp [c8a2, c8b] at h2

/-- Claim C8, amended: `find_capable_agents` returns exactly the
currently-registered workers whose `can_handle` holds — membership is
equivalent to being a registered value with `can_handle` true, the output is a
sublist of (hence ordered by) the registry's stored dict order, and it is empty
exactly when no registered worker can handle the request (an empty list, never
an error). -/
theorem c8_find_capable_filter (reg : Registry) (task : TaskRequest)
    (w : Agent) :
    (w ∈ find_capable_agents reg task ↔
      w ∈ dictValues reg ∧ w.can_handle task = true) ∧
    (find_capable_agents reg task).Sublist (dictValues reg) := by
  constructor
  · simp [find_capable_agents, List.mem_filter]
  · exact List.filter_sublist _

/-- Claim C8, witness for the amended theorem: on a concrete one-worker
registry the capable list is a sublist of the registered values. -/
theorem c8_witness :
    (find_capable_agents (register_all [c8a1]) c8task).Sublist
      (dictValues (register_all [c8a1])) :=
  (c8_find_capable_filter (register_all [c8a1]) c8task c8a1).2

/-- Task used by the C4 counterexample; its defaults give `retry_count = 0`
and `max_retries = 3`, so the claimed protocol would allow retries. -/
def c4task : TaskRequest :=
  { id := "task-4", intent := .code_generation, description := "implement z",
    context := ctx0 }

/-- A capable worker whose every dispatch reports a failure. -/
def c4fail : Agent :=
  { name := "always-fails", agent_type := .code,
    can_handle := fun _ => true,
    execute := fun _ => .error (.runtime "worker failure") }

/-- Registry holding only the always-failing worker. -/
def c4reg : Registry := register_agent [] c4fail

/-- Claim C4, counterexample: dispatching `c4task` (retry budget 3) to a worker
that reports a failure results in exactly one dispatch — the engine never
increments `retry_count`, never resets the task to Pending, and never
re-dispatches, so the claimed at-least-second attempt (2 ≤ attempts) does not
happen. -/
theorem c4_counterexample :
    execute_task_attempts c4reg 1 c4task = 1 ∧
    ¬ 2 ≤ execute_task_attempts c4reg 1 c4task ∧
    c4task.max_retries = 3 ∧ c4task.retry_count = 0 :=
  ⟨rfl, by decide, rfl, rfl⟩

/-- Claim C4, amended: the Execution Engine performs no retries at all — for
every registry, elapsed time and task, `execute_task` dispatches a worker at
most once, and exactly once precisely when a capable worker exists; the
retry budget is never consulted. -/
theorem c4_engine_never_retries (reg : Registry) (elapsed : ℚ)
    (task : TaskRequest) :
    execute_task_attempts reg elapsed task ≤ 1 ∧
    (execute_task_attempts reg elapsed task = 1 ↔
      find_capable_agents reg task ≠ []) := by
  unfold execute_task_attempts execute_task_instr
  cases h : find_capable_agents reg task with
  | nil => simp [h]
  | cons a l => simp [h]

/-- Claim C4, witness for the amended theorem at a concrete input. -/
theorem c4_witness : execute_task_attempts [] 1 c4task ≤ 1 :=
  (c4_engine_never_retries [] 1 c4task).1

/-- Task used by the C5 evaluation. -/
def c5task : TaskRequest :=
  { id := "task-5", intent := .code_generation, description := "implement w",
    context := ctx0 }

/-- Claim C5, code evaluation at the failing input: with zero registered
workers, `execute_task` does not return the intended Failed TaskResult
(error "No capable agents found", execution_time 0) — the construction
`TaskResult(agent_type="unknown", ...)` violates the `AgentType` enum
annotation, pydantic raises, the except handler's identical construction raises
again, and the `ValidationError` propagates out of `execute_task`. -/
theorem c5_dispatch_gap_raises :
    execute_task [] 0 c5task =
      Except.error (PyError.validation (agentTypeValidationMsg "unknown")) :=
  rfl

/-- Task used by the C9 evaluation. -/
def c9task : TaskRequest :=
  { id := "task-9", intent := .code_generation, description := "implement v",
    context := ctx0 }

/-- A capable worker whose `execute` raises `RuntimeError("boom")`. -/
def c9agent : Agent :=
  { name := "raising-worker", agent_type := .code,
    can_handle := fun _ => true,
    execute := fun _ => .error (.runtime "boom") }

/-- Registry holding only the raising worker. -/
def c9reg : Registry := register_agent [] c9agent

/-- Claim C9, code evaluation at the failing input: when the selected worker's
`execute` raises, the except handler attempts
`TaskResult(agent_type="unknown", status=FAILED, error=str(e), ...)`, whose
construction itself raises a pydantic `ValidationError` ("unknown" is not an
`AgentType` member); that second exception is outside the try block, so
`execute_task` propagates it instead of returning a Failed result. -/
theorem c9_except_handler_raises :
    execute_task c9reg 1 c9task =
      Except.error (PyError.validation (agentTypeValidationMsg "unknown")) :=
  rfl

/-- Helper for C10: the engine's subtask loop, when it returns a result list,
returns one result per subtask, in order, the i-th being the i-th subtask's
`execute_task` outcome. -/
theorem run_subtasks_ok (reg : Registry) (elapsed : ℚ) :
    ∀ (ts : List TaskRequest) (rs : List TaskResult),
      run_subtasks reg elapsed ts = .ok rs →
      rs.length = ts.length ∧
      ∀ (i : Nat) (h1 : i < ts.length) (h2 : i < rs.length),
        execute_task reg elapsed (ts.get ⟨i, h1⟩) = .ok (rs.get ⟨i, h2⟩) := by
  intro ts
  induction ts with
  | nil =>
    intro rs h
    rw [run_subtasks] at h
    cases h
    exact ⟨rfl, fun i h1 _ => absurd h1 (by simp)⟩
  | cons t ts ih =>
    intro rs h
    rw [run_subtasks] at h
    cases he : execute_task reg elapsed t with
    | error e =>
      rw [he] at h
      exact absurd h (by simp)
    | ok r =>
      rw [he] at h
      cases hr : run_subtasks reg elapsed ts with
      | error e =>
        rw [hr] at h
        exact absurd h (by simp)
      | ok rs2 =>
        rw [hr] at h
        have h3 : r :: rs2 = rs := by injection h
        cases h3
        obtain ⟨hlen, hget⟩ := ih rs2 hr
        refine ⟨by simp [hlen], ?_⟩
        intro i h1 h2
        cases i with
        | zero => simpa using he
        | succ j =>
          have hj1 : j < ts.length := by simpa using h1
          have hj2 : j < rs2.length := by simpa using h2
          simpa using hget j hj1 hj2

/-- Plan used by the C10 counterexample: two subtasks, executed against an
empty registry. -/
def c10plan : planner.ExecutionPlan :=
  { id := "plan-10", original_task := task0, subtasks := [task0, c8task],
    dependencies := [], estimated_duration := 60 }

/-- Claim C10, counterexample: executing a two-subtask plan over an empty
registry does not return a list of two TaskResults — the first subtask's
`execute_task` raises (pydantic `ValidationError` from the
`agent_type="unknown"` construction), the exception propagates out of
`execute_plan`, and no result list is produced. -/
theorem c10_counterexample :
    execute_plan [] 0 c10plan =
      Except.error (PyError.validation (agentTypeValidationMsg "unknown")) ∧
    c10plan.subtasks.length = 2 :=
  ⟨rfl, rfl⟩

/-- Claim C10, amended: `execute_plan` ignores the plan's dependency map
entirely, and whenever it returns normally it returns exactly one TaskResult
per subtask, in subtask-list order, the i-th result being the i-th subtask's
`execute_task` outcome (the loop awaits each subtask before the next); when
some subtask's execution raises, the exception propagates and no list is
returned. -/
theorem c10_execute_plan_sequential (reg : Registry) (elapsed : ℚ)
    (plan : planner.ExecutionPlan) :
    (∀ deps2, execute_plan reg elapsed { plan with dependencies := deps2 } =
      execute_plan reg elapsed plan) ∧
    ∀ rs, execute_plan reg elapsed plan = .ok rs →
      rs.length = plan.subtasks.length ∧
      ∀ (i : Nat) (h1 : i < plan.subtasks.length) (h2 : i < rs.length),
        execute_task reg elapsed (plan.subtasks.get ⟨i, h1⟩) =
          .ok (rs.get ⟨i, h2⟩) :=
  ⟨fun _ => rfl, fun rs h => run_subtasks_ok reg elapsed plan.subtasks rs h⟩

/-- A worker that succeeds on every request. -/
def okAgent : Agent :=
  { name := "ok-worker", agent_type := .code,
    can_handle := fun _ => true,
    execute := fun t => .ok (okResult t .code) }

/-- Registry holding the succeeding worker. -/
def okReg : Registry := register_agent [] okAgent

/-- Claim C10, witness for the amended theorem: a concrete two-subtask plan
executed over the succeeding registry yields exactly two results. -/
theorem c10_witness :
    ([okResult task0 .code, okResult c8task .code] : List TaskResult).length =
      c10plan.subtasks.length :=
  ((c10_execute_plan_sequential okReg 0 c10plan).2
    [okResult task0 .code, okResult c8task .code] rfl).1

/-- Claim C1: the façade is total — `process_request` returns the plain failed
dict (status "failed", carrying `str(e)`) whenever its try block raises, and
returns the formatted response unchanged otherwise; no exception escapes. -/
theorem c1_facade_absorbs_faults (reg : Registry) (elapsed : ℚ)
    (user_input : String) (ctx : ExecutionContext) :
    (∀ e, process_request_try reg elapsed user_input ctx = .error e →
      process_request reg elapsed user_input ctx = Response.failed e.message ∧
      (process_request reg elapsed user_input ctx).statusOf = "failed") ∧
    (∀ r, process_request_try reg elapsed user_input ctx = .ok r →
      process_request reg elapsed user_input ctx = r) := by
  constructor
  · intro e h
    unfold process_request
    rw [h]
    exact ⟨rfl, rfl⟩
  · intro r h
    unfold process_request
    rw [h]

/-- Claim C1, witness: a request whose engine stage raises (worker raises, and
the engine's except handler itself raises a `ValidationError`) is converted by
the façade into the failed dict carrying the error message. -/
theorem c1_witness :
    process_request c9reg 1 "implement v" ctx0 =
      Response.failed (agentTypeValidationMsg "unknown") :=
  ((c1_facade_absorbs_faults c9reg 1 "implement v" ctx0).1
    (PyError.validation (agentTypeValidationMsg "unknown")) rfl).1

end Archemeds
